import Mathlib

/-!
Verification development for the restic CSI driver's volume lifecycle code.

The Go sources are shallowly embedded as pure Lean functions.  External
commands (`lvs`, `lvcreate`, `lvextend`, `lvremove`, `mkfs.xfs`, `findmnt`,
`mount`, `umount`) act on an explicit `BackendState`; every issued command is
also recorded in a trace (`List Cmd`) so that claims about "which backend
operations were performed" can be stated.  The backend semantics follows the
repository's own test harness (`fakeExecCommand` / `TestHelperProcess`):
`lvcreate` fails on an existing volume, `lvextend`/`lvremove` fail on a
missing device, `mkfs.xfs` succeeds, `lvs` reports the pool's volumes, and
`findmnt` exits 0 with the target when mounted and exits 1 when not mounted.
-/

/-- A volume as the backend (LVM) knows it: `lv_name`, `lv_size` (a signed
64-bit byte count) and `lv_attr`, as reported by `lvs --reportformat json`. -/
structure BVol where
  name : String
  size : Int
  attr : String
deriving Repr, DecidableEq

/-- The state of the external volume backend: one volume group `vg` holding
one thin pool `poolName` with its thin volumes `vols`, the mount table
`mounts` (device path to mount target, queried by `findmnt`), and the set of
device paths whose `lv_attr` starts with `t` (thin pools, queried by
`isThinPool`). -/
structure BackendState where
  vg : String
  poolName : String
  vols : List BVol
  mounts : List (String × String)
  thinDevs : List String
deriving Repr, DecidableEq

/-- Embedding of the `lvm.Volume` struct (the current generation, with
`vg_name`, `Mounted` and `Target` fields).  `DataPercent`/`MetadataPercent`
are never read by any embedded operation and are omitted. -/
structure Volume where
  vgName : String
  lvName : String
  lvAttr : String
  lvSize : Int
  mounted : Bool
  target : String
deriving Repr, DecidableEq

/-- Embedding of the `lvm.ThinPool` struct.  The mutex only serializes calls
and carries no data; it is not modelled. -/
structure ThinPool where
  longName : String
  name : String
  vgName : String
  volumes : List Volume
deriving Repr, DecidableEq

/-- Device path of a logical volume, `"/dev/" + vg + "/" + lv`. -/
def devPath (vg lv : String) : String := "/dev/" ++ vg ++ "/" ++ lv

/-- Helper for `splitSlash`: accumulates the current field (in reverse). -/
def splitSlashAux : List Char → List Char → List String
  | [], acc => [String.mk acc.reverse]
  | c :: cs, acc =>
    if c = '/' then String.mk acc.reverse :: splitSlashAux cs []
    else splitSlashAux cs (c :: acc)

/-- Embedding of Go's `strings.Split(s, "/")`: splits `s` at every `/`,
always yielding at least one (possibly empty) field. -/
def splitSlash (s : String) : List String := splitSlashAux s.data []

/-- Character-list prefix test backing `strHasPrefix`. -/
def hasPrefixChars : List Char → List Char → Bool
  | _, [] => true
  | [], _ :: _ => false
  | c :: cs, p :: ps => c = p && hasPrefixChars cs ps

/-- Embedding of Go's `strings.HasPrefix(s, p)`. -/
def strHasPrefix (s p : String) : Bool := hasPrefixChars s.data p.data

/-- Embedding of Go's `s[n:]` for a string whose first `n` bytes are ASCII
(as is the case for the `"secret:"` prefix): drop the first `n`
characters. -/
def strDropChars (s : String) (n : Nat) : String := String.mk (s.data.drop n)

/-- Embedding of `Volume.DeviceName`: `fmt.Sprintf("/dev/%s/%s", VGName, LVName)`. -/
def Volume.devName (v : Volume) : String := devPath v.vgName v.lvName

/-- One external command issued by the driver, as recorded in the trace. -/
inductive Cmd where
  | lvsReport (pool vg : String)
  | lvsAttr (device : String)
  | findmnt (device : String)
  | lvcreate (size : Int) (pool name : String)
  | mkfs (device : String)
  | lvextend (size : Int) (device : String)
  | lvremove (device : String)
  | mountDev (device target : String)
  | umountDev (device : String)
deriving Repr, DecidableEq

/-- Whether a command mutates backend state (as opposed to a pure query). -/
def Cmd.isMutation : Cmd → Bool
  | .lvcreate _ _ _ | .mkfs _ | .lvextend _ _ | .lvremove _ | .mountDev _ _ | .umountDev _ => true
  | _ => false

/-- Whether a command is an extend operation. -/
def Cmd.isExtend : Cmd → Bool
  | .lvextend _ _ => true
  | _ => false

/-- Outcome of running `findmnt -n -o TARGET --source <device>`: exit 0 with
the target path on stdout, a nonzero exit code (`exec.ExitError`), or a
failure to execute at all. -/
inductive FindmntResult where
  | ok (output : String)
  | exitCode (c : Nat)
  | execFailed
deriving Repr, DecidableEq

/-- Embedding of `Volume.UpdateMountStatus`: exit code 1 means "not
mounted" (fields cleared, nil error); any other `ExitError` or execution
failure is returned as the error with the fields untouched; on success the
volume is marked mounted at the whitespace-trimmed reported target. -/
def updateMountStatus (v : Volume) (r : FindmntResult) : Volume × Option String :=
  match r with
  | .exitCode c =>
    if c = 1 then ({ v with mounted := false, target := "" }, none)
    else (v, some "findmnt failed")
  | .execFailed => (v, some "findmnt failed")
  | .ok out => ({ v with mounted := true, target := out.trim }, none)

/-- Backend semantics of `findmnt` on a device: reports the mount target
with exit 0 when mounted, exits 1 when not. -/
def findmntQuery (st : BackendState) (device : String) : FindmntResult :=
  match st.mounts.lookup device with
  | some t => .ok t
  | none => .exitCode 1

/-- A backend report row turned into the in-memory `Volume` record exactly as
`refreshVolumes` does: the JSON fields populate the struct (the `Mounted` and
`Target` zero values are `false` and `""`), then `UpdateMountStatus` runs. -/
def materialize (vg : String) (st : BackendState) (b : BVol) : Volume :=
  (updateMountStatus
    { vgName := vg, lvName := b.name, lvAttr := b.attr, lvSize := b.size,
      mounted := false, target := "" }
    (findmntQuery st (devPath vg b.name))).1

/-- Embedding of `ThinPool.refreshVolumes`: runs `lvs --select
pool_lv=<Name>&&vg_name=<VGName>`, replaces `Volumes` wholesale with the
report (empty when the selection matches nothing), and runs
`UpdateMountStatus` on every row.  Returns the refreshed pool and the trace
of issued commands. -/
def refreshVolumes (tp : ThinPool) (st : BackendState) : ThinPool × List Cmd :=
  let rows := if tp.name = st.poolName ∧ tp.vgName = st.vg then st.vols else []
  ({ tp with volumes := rows.map (materialize tp.vgName st) },
   Cmd.lvsReport tp.name tp.vgName :: rows.map (fun b => Cmd.findmnt (devPath tp.vgName b.name)))

/-- Embedding of `ThinPool.GetVolume`: refresh, then linear search by
`LVName`. -/
def getVolume (tp : ThinPool) (st : BackendState) (volumeName : String) :
    ThinPool × List Cmd × Option Volume :=
  let r := refreshVolumes tp st
  (r.1, r.2, r.1.volumes.find? (fun v => v.lvName == volumeName))

/-- Backend semantics of `lvcreate -V <size>B -T <pool> -n <name>`: fails if
the pool device does not match or a volume of that name already exists,
otherwise appends the new thin volume. -/
def runLvcreate (st : BackendState) (pool name : String) (size : Int) :
    Except String BackendState :=
  if pool ≠ devPath st.vg st.poolName then .error "lvcreate failed"
  else if st.vols.any (fun b => b.name == name) then .error "lvcreate failed"
  else .ok { st with vols := st.vols ++ [{ name := name, size := size, attr := "Vwi-a-tz--" }] }

/-- Backend semantics of `lvextend --size <size>B --resizefs <device>`:
fails unless the device names an existing volume, otherwise sets that
volume's size to the requested absolute size. -/
def runLvextend (st : BackendState) (device : String) (size : Int) :
    Except String BackendState :=
  if st.vols.any (fun b => devPath st.vg b.name == device) then
    .ok { st with
          vols := st.vols.map fun b =>
            if devPath st.vg b.name == device then { b with size := size } else b }
  else .error "lvextend failed"

/-- Backend semantics of `lvremove -f <device>`: fails unless the device
names an existing volume, otherwise removes it. -/
def runLvremove (st : BackendState) (device : String) : Except String BackendState :=
  if st.vols.any (fun b => devPath st.vg b.name == device) then
    .ok { st with vols := st.vols.filter (fun b => !(devPath st.vg b.name == device)) }
  else .error "lvremove failed"

/-- Embedding of `CreateThinVolume`: `lvcreate -V <size>B -T <longName> -n
<name>`, then — exactly as in the source — `mkfs.xfs <longName>`, i.e. the
filesystem is made on the pool device path that was passed in, not on the
new volume's device.  On success it returns a `Volume` whose `VGName` is
element 1 of the `/`-split of the pool path (`strings.Split(...)[1]`); the
only caller discards this record. -/
def createThinVolume (volumeName thinPoolLongName : String) (size : Int)
    (st : BackendState) : BackendState × List Cmd × Except String Volume :=
  match runLvcreate st thinPoolLongName volumeName size with
  | .error e => (st, [Cmd.lvcreate size thinPoolLongName volumeName], .error e)
  | .ok st1 =>
    (st1, [Cmd.lvcreate size thinPoolLongName volumeName, Cmd.mkfs thinPoolLongName],
     .ok { vgName := ((splitSlash thinPoolLongName)[1]?).getD "",
           lvName := volumeName, lvAttr := "", lvSize := size,
           mounted := false, target := "" })

/-- Embedding of `Volume.Extend`: `lvextend --size <size>B --resizefs` on
the volume's own device path. -/
def volumeExtend (v : Volume) (size : Int) (st : BackendState) :
    BackendState × List Cmd × Option String :=
  match runLvextend st v.devName size with
  | .error e => (st, [Cmd.lvextend size v.devName], some e)
  | .ok st1 => (st1, [Cmd.lvextend size v.devName], none)

/-- Embedding of `Volume.Remove`: `lvremove -f` on the volume's device path
(the string argument of the Go method is unused). -/
def volumeRemove (v : Volume) (st : BackendState) :
    BackendState × List Cmd × Option String :=
  match runLvremove st v.devName with
  | .error e => (st, [Cmd.lvremove v.devName], some e)
  | .ok st1 => (st1, [Cmd.lvremove v.devName], none)

/-- Result of a `ThinPool` operation: the updated in-memory pool, the
updated backend state, the trace of issued commands, and the returned error
(`none` = success). -/
structure PoolOpResult where
  pool : ThinPool
  state : BackendState
  trace : List Cmd
  err : Option String
deriving Repr, DecidableEq

/-- Embedding of `ThinPool.EnsureVolumeIsPresent` (the generation tested by
`TestNewThinPool`): `GetVolume`; if absent, `CreateThinVolume` followed on
success by a refresh; if present and `size != 0 && LVSize < size`,
`Volume.Extend` followed on success by a refresh; otherwise a no-op. -/
def ensureVolumeIsPresent (tp : ThinPool) (st : BackendState) (volumeName : String)
    (size : Int) : PoolOpResult :=
  let g := getVolume tp st volumeName
  match g.2.2 with
  | none =>
    let c := createThinVolume volumeName g.1.longName size st
    match c.2.2 with
    | .error e => ⟨g.1, c.1, g.2.1 ++ c.2.1, some e⟩
    | .ok _ =>
      let r := refreshVolumes g.1 c.1
      ⟨r.1, c.1, g.2.1 ++ c.2.1 ++ r.2, none⟩
  | some v =>
    if size ≠ 0 ∧ v.lvSize < size then
      let x := volumeExtend v size st
      match x.2.2 with
      | some e => ⟨g.1, x.1, g.2.1 ++ x.2.1, some e⟩
      | none =>
        let r := refreshVolumes g.1 x.1
        ⟨r.1, x.1, g.2.1 ++ x.2.1 ++ r.2, none⟩
    else ⟨g.1, st, g.2.1, none⟩

/-- Embedding of `ThinPool.EnsureVolumeIsAbsent`: `GetVolume`; a no-op on an
absent volume; otherwise `Volume.Remove` followed on success by a refresh. -/
def ensureVolumeIsAbsent (tp : ThinPool) (st : BackendState) (volumeName : String) :
    PoolOpResult :=
  let g := getVolume tp st volumeName
  match g.2.2 with
  | none => ⟨g.1, st, g.2.1, none⟩
  | some v =>
    let x := volumeRemove v st
    match x.2.2 with
    | some e => ⟨g.1, x.1, g.2.1 ++ x.2.1, some e⟩
    | none =>
      let r := refreshVolumes g.1 x.1
      ⟨r.1, x.1, g.2.1 ++ x.2.1 ++ r.2, none⟩

/-- Backend semantics of `isThinPool`: `lvs <dev> -o lv_attr` succeeds and
the attribute string starts with `t`. -/
def isThinPool (st : BackendState) (poolName : String) : Bool :=
  st.thinDevs.contains poolName

/-- Outcome of `NewThinPool`: a pool, a returned error, or a runtime panic
(out-of-range slice index). -/
inductive NewPoolResult where
  | ok (tp : ThinPool)
  | err (msg : String)
  | crash
deriving Repr, DecidableEq

/-- Embedding of `NewThinPool`: checks `isThinPool`, splits the path on
`/`, and under a `len(parts) >= 3` guard reads `parts[3]` (the pool name)
and `parts[2]` (the VG name) — an out-of-range read is a Go panic, modelled
as `.crash` — then refreshes the volume list. -/
def newThinPool (st : BackendState) (longName : String) : NewPoolResult × List Cmd :=
  if !isThinPool st longName then (.err "thin pool does not exist", [Cmd.lvsAttr longName])
  else
    let parts := splitSlash longName
    if parts.length ≥ 3 then
      match parts[3]?, parts[2]? with
      | some nm, some vg =>
        let tp0 : ThinPool := { longName := longName, name := nm, vgName := vg, volumes := [] }
        let r := refreshVolumes tp0 st
        (.ok r.1, Cmd.lvsAttr longName :: r.2)
      | _, _ => (.crash, [Cmd.lvsAttr longName])
    else (.err "invalid thin pool path", [Cmd.lvsAttr longName])

/-- The in-memory pool record agrees with the backend it talks to: its pool
name and VG name match the backend's, and its device path is the pool's. -/
def Coherent (tp : ThinPool) (st : BackendState) : Prop :=
  tp.name = st.poolName ∧ tp.vgName = st.vg ∧ tp.longName = devPath st.vg st.poolName

/-- First backend report row for a volume name, the record
`findVolume`/`GetVolume` compares against. -/
def BackendState.findVol (st : BackendState) (name : String) : Option BVol :=
  st.vols.find? (fun b => b.name == name)

/-- The in-memory pool as a refresh against `st` leaves it. -/
abbrev refreshedPool (tp : ThinPool) (st : BackendState) : ThinPool :=
  { tp with volumes := st.vols.map (materialize st.vg st) }

/-- The query commands one refresh issues. -/
abbrev queriesTrace (st : BackendState) : List Cmd :=
  Cmd.lvsReport st.poolName st.vg ::
    st.vols.map (fun b => Cmd.findmnt (devPath st.vg b.name))

/-- Backend state after `lvcreate` of a new thin volume. -/
abbrev createSt (st : BackendState) (name : String) (size : Int) : BackendState :=
  { st with vols := st.vols ++ [{ name := name, size := size, attr := "Vwi-a-tz--" }] }

/-- Backend state after `lvextend` of the volume at `b`'s device. -/
abbrev extSt (st : BackendState) (b : BVol) (size : Int) : BackendState :=
  { st with
    vols := st.vols.map fun x =>
      if devPath st.vg x.name == devPath st.vg b.name then { x with size := size } else x }

/-- Backend state after `lvremove` of the volume at `b`'s device. -/
abbrev removeSt (st : BackendState) (b : BVol) : BackendState :=
  { st with vols := st.vols.filter fun x => !(devPath st.vg x.name == devPath st.vg b.name) }

/-- Embedding of `config.Destination`: a restic repository locator plus an
environment/credential map (modelled as an association list with each key
appearing once, matching a Go map). -/
structure Destination where
  environment : List (String × String)
  repository : String
deriving Repr, DecidableEq

/-- Embedding of `config.Config`. -/
structure Config where
  stagingPath : String
  thinPoolName : String
  resticRepo : List Destination
deriving Repr, DecidableEq

/-- One environment value as `LoadConfig` rewrites it: a value starting with
`"secret:"` whose remaining key is found in the secret store becomes the
store's value for that key (verbatim, with no further resolution); every
other value is kept unchanged. -/
def resolveValue (secret : List (String × String)) (val : String) : String :=
  if strHasPrefix val "secret:" then
    match secret.lookup (strDropChars val 7) with
    | some sv => sv
    | none => val
  else val

/-- Embedding of the secret-resolution loop at the end of
`config.LoadConfig` (file reading and TOML decoding are external; this is
the transformation applied to the parsed values, run once at load time). -/
def loadConfigResolve (secret : List (String × String)) (cfg : Config) : Config :=
  { cfg with
    resticRepo := cfg.resticRepo.map fun d =>
      { d with environment := d.environment.map fun kv => (kv.1, resolveValue secret kv.2) } }

/-- Outcome of a CSI node-service gRPC call: success, a typed
`InvalidArgument` status, or a runtime panic (out-of-range slice index). -/
inductive GrpcOutcome where
  | ok
  | invalidArgument (msg : String)
  | crash
deriving Repr, DecidableEq

/-- Embedding of `Driver.NodePublishVolume`: validates the volume ID and
target path (returning `InvalidArgument` before anything else runs), then
logs `d.config.ResticRepo[0].Repository` (a panic when no destination is
configured) and returns success.  The mount logic is commented out in the
source, so no backend command is ever issued. -/
def nodePublishVolume (cfg : Config) (volumeId targetPath : String) :
    GrpcOutcome × List Cmd :=
  if volumeId = "" then
    (.invalidArgument "NodePublishVolume Volume ID must be provided", [])
  else if targetPath = "" then
    (.invalidArgument "NodePublishVolume Target Path must be provided", [])
  else
    match cfg.resticRepo[0]? with
    | none => (.crash, [])
    | some _ => (.ok, [])

/-- Embedding of `Driver.NodeUnpublishVolume`: validates the volume ID and
target path, logs, and returns success without issuing any backend
command. -/
def nodeUnpublishVolume (volumeId targetPath : String) : GrpcOutcome × List Cmd :=
  if volumeId = "" then
    (.invalidArgument "NodeUnpublishVolume Volume ID must be provided", [])
  else if targetPath = "" then
    (.invalidArgument "NodeUnpublishVolume Target Path must be provided", [])
  else (.ok, [])

/-- Modelled from the spec: the `DestinationSelector.SelectSnapshot`
component is not implemented anywhere in the source tree, so this follows
§4.2 of the spec.  Each configured destination's query result is an
`Option Int` timestamp (`none` covers both "no snapshot" and "query
failed", which the spec treats alike); the selector picks the candidate
whose timestamp has the smallest absolute distance to `targetTime`, ties
broken in favour of the earlier (first configured) destination, and
returns `none` — not an error — when every destination reports `none`. -/
def selectSnapshot (cands : List (Option Int)) (targetTime : Int) : Option Int :=
  match cands with
  | [] => none
  | none :: rest => selectSnapshot rest targetTime
  | some c :: rest =>
    match selectSnapshot rest targetTime with
    | none => some c
    | some b => if |b - targetTime| < |c - targetTime| then some b else some c

/-- Concrete pool for the C1 scenario, as in `TestNewThinPool`. -/
def tpScenC1 : ThinPool :=
  { longName := "/dev/vg0/existing_thin_pool", name := "existing_thin_pool",
    vgName := "vg0", volumes := [] }

/-- Concrete backend for the C1 scenario: the pool exists and is thin, no
volume named `test-volume` is present. -/
def stScenC1 : BackendState :=
  { vg := "vg0", poolName := "existing_thin_pool", vols := [], mounts := [],
    thinDevs := ["/dev/vg0/existing_thin_pool"] }

/-- Concrete configuration for the C4 scenario: one configured restic
destination, as in the repository's example configuration. -/
def cfgScenC4 : Config :=
  { stagingPath := "/mnt/volumes", thinPoolName := "/dev/vg0/existing_thin_pool",
    resticRepo := [{ environment := [("RESTIC_PASSWORD", "hunter2")],
                     repository := "s3:s3.example.org/backups" }] }

/-- Concrete backend with the 1 GiB `test-volume` present in the pool. -/
def stScenPresent : BackendState :=
  { vg := "vg0", poolName := "existing_thin_pool",
    vols := [{ name := "test-volume", size := 1073741824, attr := "Vwi-a-tz--" }],
    mounts := [], thinDevs := ["/dev/vg0/existing_thin_pool"] }

/-- Concrete backend for the C10 counterexample: the backend reports the
device `dev/vg0/pool` as a thin pool; its path splits on `/` into exactly
three parts. -/
def stScenC10 : BackendState :=
  { vg := "vg0", poolName := "pool", vols := [], mounts := [],
    thinDevs := ["dev/vg0/pool"] }

/-! ## Helper lemmas -/

theorem updateMountStatus_lvName (v : Volume) (r : FindmntResult) :
    ((updateMountStatus v r).1).lvName = v.lvName := by
  cases r with
  | ok out => rfl
  | execFailed => rfl
  | exitCode c => by_cases h : c = 1 <;> simp [updateMountStatus, h]

theorem updateMountStatus_lvSize (v : Volume) (r : FindmntResult) :
    ((updateMountStatus v r).1).lvSize = v.lvSize := by
  cases r with
  | ok out => rfl
  | execFailed => rfl
  | exitCode c => by_cases h : c = 1 <;> simp [updateMountStatus, h]

theorem updateMountStatus_vgName (v : Volume) (r : FindmntResult) :
    ((updateMountStatus v r).1).vgName = v.vgName := by
  cases r with
  | ok out => rfl
  | execFailed => rfl
  | exitCode c => by_cases h : c = 1 <;> simp [updateMountStatus, h]

theorem materialize_lvName (vg : String) (st : BackendState) (b : BVol) :
    (materialize vg st b).lvName = b.name := by
  simp [materialize, updateMountStatus_lvName]

theorem materialize_lvSize (vg : String) (st : BackendState) (b : BVol) :
    (materialize vg st b).lvSize = b.size := by
  simp [materialize, updateMountStatus_lvSize]

theorem materialize_vgName (vg : String) (st : BackendState) (b : BVol) :
    (materialize vg st b).vgName = vg := by
  simp [materialize, updateMountStatus_vgName]

theorem refreshVolumes_eq (tp : ThinPool) (st : BackendState)
    (h1 : tp.name = st.poolName) (h2 : tp.vgName = st.vg) :
    refreshVolumes tp st =
      ({ tp with volumes := st.vols.map (materialize st.vg st) },
       Cmd.lvsReport st.poolName st.vg ::
         st.vols.map (fun b => Cmd.findmnt (devPath st.vg b.name))) := by
  simp [refreshVolumes, h1, h2]

theorem refreshVolumes_trace_no_mutation (tp : ThinPool) (st : BackendState) :
    ∀ c ∈ (refreshVolumes tp st).2, c.isMutation = false := by
  intro c hc
  simp only [refreshVolumes, List.mem_cons, List.mem_map] at hc
  rcases hc with h | ⟨b, _, h⟩ <;> subst h <;> rfl

theorem refreshVolumes_filter_mutation (tp : ThinPool) (st : BackendState) :
    (refreshVolumes tp st).2.filter Cmd.isMutation = [] := by
  refine List.filter_eq_nil_iff.mpr ?_
  intro c hc
  simp [refreshVolumes_trace_no_mutation tp st c hc]

theorem refreshVolumes_filter_extend (tp : ThinPool) (st : BackendState) :
    (refreshVolumes tp st).2.filter Cmd.isExtend = [] := by
  refine List.filter_eq_nil_iff.mpr ?_
  intro c hc
  have := refreshVolumes_trace_no_mutation tp st c hc
  cases c <;> simp_all [Cmd.isMutation, Cmd.isExtend]

theorem refreshVolumes_longName (tp : ThinPool) (st : BackendState) :
    ((refreshVolumes tp st).1).longName = tp.longName := rfl

theorem refreshVolumes_name (tp : ThinPool) (st : BackendState) :
    ((refreshVolumes tp st).1).name = tp.name := rfl

theorem refreshVolumes_vgName (tp : ThinPool) (st : BackendState) :
    ((refreshVolumes tp st).1).vgName = tp.vgName := rfl

theorem find_materialize (st : BackendState) (vg name : String) (l : List BVol) :
    ((l.map (materialize vg st)).find? fun v => v.lvName == name)
      = (l.find? (fun b => b.name == name)).map (materialize vg st) := by
  rw [List.find?_map]
  have h : ((fun v => v.lvName == name) ∘ materialize vg st) = fun b => b.name == name := by
    funext b
    simp [Function.comp, materialize_lvName]
  rw [h]

theorem find_name_map (g : BVol → BVol) (hg : ∀ b, (g b).name = b.name)
    (l : List BVol) (name : String) :
    (l.map g).find? (fun b => b.name == name)
      = (l.find? (fun b => b.name == name)).map g := by
  rw [List.find?_map]
  have h : ((fun b => b.name == name) ∘ g) = fun b => b.name == name := by
    funext b
    simp [Function.comp, hg]
  rw [h]

theorem getVolume_eq (tp : ThinPool) (st : BackendState) (name : String)
    (h1 : tp.name = st.poolName) (h2 : tp.vgName = st.vg) :
    getVolume tp st name =
      ({ tp with volumes := st.vols.map (materialize st.vg st) },
       Cmd.lvsReport st.poolName st.vg ::
         st.vols.map (fun b => Cmd.findmnt (devPath st.vg b.name)),
       (st.findVol name).map (materialize st.vg st)) := by
  unfold getVolume
  rw [refreshVolumes_eq tp st h1 h2]
  dsimp only
  rw [find_materialize]
  rfl

theorem ensurePresent_noop_eq (tp : ThinPool) (st : BackendState) (name : String)
    (size : Int) (b : BVol) (h1 : tp.name = st.poolName) (h2 : tp.vgName = st.vg)
    (hfind : st.findVol name = some b) (hcond : ¬(size ≠ 0 ∧ b.size < size)) :
    ensureVolumeIsPresent tp st name size =
      ⟨{ tp with volumes := st.vols.map (materialize st.vg st) }, st,
       Cmd.lvsReport st.poolName st.vg ::
         st.vols.map (fun x => Cmd.findmnt (devPath st.vg x.name)), none⟩ := by
  unfold ensureVolumeIsPresent
  rw [getVolume_eq tp st name h1 h2, hfind]
  have hcond2 : ¬(size ≠ 0 ∧ (materialize st.vg st b).lvSize < size) := by
    rw [materialize_lvSize]
    exact hcond
  simp only [Option.map_some']
  rw [if_neg hcond2]

theorem volumeExtend_eq (st : BackendState) (b : BVol) (hb : b ∈ st.vols)
    (v : Volume) (hvg : v.vgName = st.vg) (hlv : v.lvName = b.name) (size : Int) :
    volumeExtend v size st =
      ({ st with
         vols := st.vols.map fun x =>
           if devPath st.vg x.name == devPath st.vg b.name then { x with size := size }
           else x },
       [Cmd.lvextend size (devPath st.vg b.name)], none) := by
  unfold volumeExtend runLvextend Volume.devName
  rw [hvg, hlv]
  have hany : st.vols.any (fun x => devPath st.vg x.name == devPath st.vg b.name) = true :=
    List.any_eq_true.mpr ⟨b, hb, by simp⟩
  rw [if_pos hany]

theorem ensurePresent_extend_eq (tp : ThinPool) (st : BackendState) (name : String)
    (size : Int) (b : BVol) (h1 : tp.name = st.poolName) (h2 : tp.vgName = st.vg)
    (hfind : st.findVol name = some b) (hcond : size ≠ 0 ∧ b.size < size) :
    ensureVolumeIsPresent tp st name size =
      ⟨(refreshVolumes { tp with volumes := st.vols.map (materialize st.vg st) }
          { st with
            vols := st.vols.map fun x =>
              if devPath st.vg x.name == devPath st.vg b.name then { x with size := size }
              else x }).1,
       { st with
         vols := st.vols.map fun x =>
           if devPath st.vg x.name == devPath st.vg b.name then { x with size := size }
           else x },
       (Cmd.lvsReport st.poolName st.vg ::
          st.vols.map (fun x => Cmd.findmnt (devPath st.vg x.name)))
         ++ [Cmd.lvextend size (devPath st.vg b.name)]
         ++ (refreshVolumes { tp with volumes := st.vols.map (materialize st.vg st) }
              { st with
                vols := st.vols.map fun x =>
                  if devPath st.vg x.name == devPath st.vg b.name then { x with size := size }
                  else x }).2,
       none⟩ := by
  unfold ensureVolumeIsPresent
  rw [getVolume_eq tp st name h1 h2, hfind]
  have hcond2 : size ≠ 0 ∧ (materialize st.vg st b).lvSize < size := by
    rw [materialize_lvSize]
    exact hcond
  simp only [Option.map_some']
  rw [if_pos hcond2]
  rw [volumeExtend_eq st b (List.mem_of_find?_eq_some hfind) (materialize st.vg st b)
       (materialize_vgName st.vg st b) (materialize_lvName st.vg st b) size]

theorem ensurePresent_create_eq (tp : ThinPool) (st : BackendState) (name : String)
    (size : Int) (h1 : tp.name = st.poolName) (h2 : tp.vgName = st.vg)
    (h3 : tp.longName = devPath st.vg st.poolName)
    (habs : st.findVol name = none) :
    ensureVolumeIsPresent tp st name size =
      ⟨(refreshVolumes { tp with volumes := st.vols.map (materialize st.vg st) }
          { st with vols := st.vols ++ [{ name := name, size := size, attr := "Vwi-a-tz--" }] }).1,
       { st with vols := st.vols ++ [{ name := name, size := size, attr := "Vwi-a-tz--" }] },
       (Cmd.lvsReport st.poolName st.vg ::
          st.vols.map (fun x => Cmd.findmnt (devPath st.vg x.name)))
         ++ [Cmd.lvcreate size (devPath st.vg st.poolName) name,
             Cmd.mkfs (devPath st.vg st.poolName)]
         ++ (refreshVolumes { tp with volumes := st.vols.map (materialize st.vg st) }
              { st with vols := st.vols ++ [{ name := name, size := size, attr := "Vwi-a-tz--" }] }).2,
       none⟩ := by
  have hany : st.vols.any (fun x => x.name == name) = false := by
    rw [List.any_eq_false]
    intro x hx
    exact List.find?_eq_none.mp habs x hx
  unfold ensureVolumeIsPresent
  rw [getVolume_eq tp st name h1 h2, habs]
  simp only [Option.map_none']
  unfold createThinVolume runLvcreate
  rw [h3, if_neg (fun hne => hne rfl), hany]
  simp only [Bool.false_eq_true, if_false]

theorem extendUpdate_name (st : BackendState) (b : BVol) (size : Int) (x : BVol) :
    ((fun x => if devPath st.vg x.name == devPath st.vg b.name then { x with size := size }
               else x) x).name = x.name := by
  dsimp only
  split <;> rfl

theorem find_after_extend (st : BackendState) (b : BVol) (name : String) (size : Int)
    (hfind : st.findVol name = some b) :
    (st.vols.map fun x =>
        if devPath st.vg x.name == devPath st.vg b.name then { x with size := size }
        else x).find? (fun x => x.name == name) = some { b with size := size } := by
  rw [find_name_map _ (extendUpdate_name st b size)]
  have hfind2 : st.vols.find? (fun x => x.name == name) = some b := hfind
  rw [hfind2]
  simp

theorem find_after_create (st : BackendState) (name : String) (size : Int)
    (habs : st.findVol name = none) :
    (st.vols ++ [({ name := name, size := size, attr := "Vwi-a-tz--" } : BVol)]).find?
        (fun x => x.name == name)
      = some ({ name := name, size := size, attr := "Vwi-a-tz--" } : BVol) := by
  rw [List.find?_append]
  have habs2 : st.vols.find? (fun x => x.name == name) = none := habs
  rw [habs2]
  simp

theorem find_after_remove (st : BackendState) (b : BVol) (name : String)
    (hname : b.name = name) :
    (st.vols.filter fun x => !(devPath st.vg x.name == devPath st.vg b.name)).find?
        (fun x => x.name == name) = none := by
  rw [List.find?_eq_none]
  intro x hx
  rw [List.mem_filter] at hx
  intro hbeq
  have hxn : x.name = name := eq_of_beq hbeq
  have : (devPath st.vg x.name == devPath st.vg b.name) = true := by
    rw [hxn, ← hname]
    simp
  rw [this] at hx
  simp at hx

theorem filter_extend_queries (pool vg vgd : String) (l : List BVol) :
    (Cmd.lvsReport pool vg ::
       l.map (fun x => Cmd.findmnt (devPath vgd x.name))).filter Cmd.isExtend = [] := by
  rw [List.filter_eq_nil_iff]
  intro c hc
  simp only [List.mem_cons, List.mem_map] at hc
  rcases hc with h | ⟨x, -, h⟩ <;> subst h <;> simp [Cmd.isExtend]

theorem filter_mut_queries (pool vg vgd : String) (l : List BVol) :
    (Cmd.lvsReport pool vg ::
       l.map (fun x => Cmd.findmnt (devPath vgd x.name))).filter Cmd.isMutation = [] := by
  rw [List.filter_eq_nil_iff]
  intro c hc
  simp only [List.mem_cons, List.mem_map] at hc
  rcases hc with h | ⟨x, -, h⟩ <;> subst h <;> simp [Cmd.isMutation]

theorem ensurePresent_noop_of_refreshed (tp1 : ThinPool) (st1 : BackendState)
    (name : String) (size' : Int) (b' : BVol)
    (h1 : tp1.name = st1.poolName) (h2 : tp1.vgName = st1.vg)
    (hvols : tp1.volumes = st1.vols.map (materialize st1.vg st1))
    (hfind : st1.findVol name = some b')
    (hno : ¬(size' ≠ 0 ∧ b'.size < size')) :
    ensureVolumeIsPresent tp1 st1 name size' =
      ⟨tp1, st1,
       Cmd.lvsReport st1.poolName st1.vg ::
         st1.vols.map (fun x => Cmd.findmnt (devPath st1.vg x.name)), none⟩ := by
  rw [ensurePresent_noop_eq tp1 st1 name size' b' h1 h2 hfind hno]
  congr 1
  rw [← hvols]

/-! ## Claim theorems -/

/-- **C1.** (code bug) On a pool containing no volume named `test-volume`,
`EnsureVolumeIsPresent("test-volume", 1GiB)` does create the volume at the
requested size, returns success, and the resulting pool state contains the
volume — but the filesystem is formatted on the pool's own device path
`/dev/vg0/existing_thin_pool` and not on the newly created volume's device
`/dev/vg0/test-volume`, contradicting the claim's "formats a filesystem on
the newly created volume (not on any other device)". -/
theorem ensurePresent_mkfs_targets_pool_device :
    (ensureVolumeIsPresent tpScenC1 stScenC1 "test-volume" 1073741824).err = none ∧
    (ensureVolumeIsPresent tpScenC1 stScenC1 "test-volume" 1073741824).state.findVol
        "test-volume" = some { name := "test-volume", size := 1073741824, attr := "Vwi-a-tz--" } ∧
    Cmd.mkfs "/dev/vg0/existing_thin_pool"
      ∈ (ensureVolumeIsPresent tpScenC1 stScenC1 "test-volume" 1073741824).trace ∧
    Cmd.mkfs "/dev/vg0/test-volume"
      ∉ (ensureVolumeIsPresent tpScenC1 stScenC1 "test-volume" 1073741824).trace := by
  decide

/-- **C4.** (code bug) A publish request with a non-empty volume identifier
and target path returns success while issuing no backend command at all:
the volume is neither created, nor seeded, nor mounted at the target path
(the mount logic in `NodePublishVolume` is commented out), contradicting
the claimed post-condition. -/
theorem nodePublishVolume_succeeds_without_any_operation :
    nodePublishVolume cfgScenC4 "test-volume" "/mnt/test" = (GrpcOutcome.ok, []) := by
  decide

/-- **C10 counterexample.** The pool path `dev/vg0/pool` splits on `/` into
exactly 3 parts and passes `NewThinPool`'s validation (the backend reports
it as a thin pool and `len(parts) >= 3` holds), yet the constructor panics:
the access `parts[3]` is out of bounds, refuting the claim "in particular
this holds for a path splitting into exactly 3 parts". -/
theorem newThinPool_crashes_on_three_part_path :
    (newThinPool stScenC10 "dev/vg0/pool").1 = NewPoolResult.crash := by
  decide

/-- **C10 (amended).** For every pool path that the backend reports as a
thin pool and that splits on `/` into at least 4 parts, the component
accesses `parts[2]` and `parts[3]` are in bounds and `NewThinPool` returns
a pool (no panic) with `Name = parts[3]` and `VGName = parts[2]`; the
`len(parts) >= 3` guard alone does not ensure this. -/
theorem newThinPool_ok_of_four_parts (st : BackendState) (longName : String)
    (hthin : isThinPool st longName = true)
    (hlen : 4 ≤ (splitSlash longName).length) :
    ∃ tp cs, newThinPool st longName = (NewPoolResult.ok tp, cs) ∧
      tp.longName = longName ∧
      (splitSlash longName)[3]? = some tp.name ∧
      (splitSlash longName)[2]? = some tp.vgName := by
  have h3 : (splitSlash longName)[3]? = some (splitSlash longName)[3] :=
    List.getElem?_eq_getElem (by omega)
  have h2 : (splitSlash longName)[2]? = some (splitSlash longName)[2] :=
    List.getElem?_eq_getElem (by omega)
  have hmain : newThinPool st longName =
      (NewPoolResult.ok (refreshVolumes
          { longName := longName, name := (splitSlash longName)[3],
            vgName := (splitSlash longName)[2], volumes := [] } st).1,
       Cmd.lvsAttr longName :: (refreshVolumes
          { longName := longName, name := (splitSlash longName)[3],
            vgName := (splitSlash longName)[2], volumes := [] } st).2) := by
    simp only [newThinPool, hthin, Bool.not_true, Bool.false_eq_true, if_false]
    rw [if_pos (by omega : (splitSlash longName).length ≥ 3), h3, h2]
  refine ⟨_, _, hmain, refreshVolumes_longName _ _, ?_, ?_⟩
  · rw [refreshVolumes_name]
    exact h3
  · rw [refreshVolumes_vgName]
    exact h2

/-- Witness for C10's amended theorem at the test fixture's pool path. -/
theorem newThinPool_ok_of_four_parts_witness :
    ∃ tp cs, newThinPool stScenC1 "/dev/vg0/existing_thin_pool" = (NewPoolResult.ok tp, cs) ∧
      tp.longName = "/dev/vg0/existing_thin_pool" ∧
      (splitSlash "/dev/vg0/existing_thin_pool")[3]? = some tp.name ∧
      (splitSlash "/dev/vg0/existing_thin_pool")[2]? = some tp.vgName :=
  newThinPool_ok_of_four_parts stScenC1 "/dev/vg0/existing_thin_pool" (by decide) (by decide)

/-- **C8.** `UpdateMountStatus` distinguishes "not mounted" from "query
failed": a backend exit code of 1 yields success with `Mounted = false` and
an empty `Target`; a successful query yields success with `Mounted = true`
and `Target` set to the reported (whitespace-trimmed) path; any other
backend failure yields an error with `Mounted` and `Target` unchanged. -/
theorem updateMountStatus_distinguishes (v : Volume) :
    updateMountStatus v (.exitCode 1) = ({ v with mounted := false, target := "" }, none) ∧
    (∀ out, updateMountStatus v (.ok out) =
      ({ v with mounted := true, target := out.trim }, none)) ∧
    (∀ c, c ≠ 1 → updateMountStatus v (.exitCode c) = (v, some "findmnt failed")) ∧
    updateMountStatus v .execFailed = (v, some "findmnt failed") := by
  refine ⟨rfl, fun out => rfl, fun c hc => ?_, rfl⟩
  simp [updateMountStatus, hc]

/-- Witness for C8 at a concrete volume and exit code 32 (a `mount`-style
failure code). -/
theorem updateMountStatus_distinguishes_witness :
    updateMountStatus
        { vgName := "vg0", lvName := "test-volume", lvAttr := "Vwi-a-tz--",
          lvSize := 1073741824, mounted := true, target := "/mnt/test" }
        (.exitCode 32)
      = ({ vgName := "vg0", lvName := "test-volume", lvAttr := "Vwi-a-tz--",
           lvSize := 1073741824, mounted := true, target := "/mnt/test" },
         some "findmnt failed") :=
  (updateMountStatus_distinguishes _).2.2.1 32 (by decide)

/-- **C5.** `NodePublishVolume` and `NodeUnpublishVolume` validate their
arguments first: an empty volume identifier or an empty target path yields
an `InvalidArgument` status with no backend command issued; when both are
non-empty, neither call ever returns `InvalidArgument`. -/
theorem nodeCalls_validate_arguments (cfg : Config) (volumeId targetPath : String) :
    (volumeId = "" ∨ targetPath = "" →
      (∃ m, nodePublishVolume cfg volumeId targetPath = (.invalidArgument m, [])) ∧
      (∃ m, nodeUnpublishVolume volumeId targetPath = (.invalidArgument m, []))) ∧
    (volumeId ≠ "" → targetPath ≠ "" →
      (∀ m, (nodePublishVolume cfg volumeId targetPath).1 ≠ GrpcOutcome.invalidArgument m) ∧
      (∀ m, (nodeUnpublishVolume volumeId targetPath).1 ≠ GrpcOutcome.invalidArgument m)) := by
  constructor
  · rintro (h | h)
    · subst h
      exact ⟨⟨_, rfl⟩, ⟨_, rfl⟩⟩
    · subst h
      by_cases hv : volumeId = ""
      · subst hv
        exact ⟨⟨_, rfl⟩, ⟨_, rfl⟩⟩
      · refine ⟨⟨"NodePublishVolume Target Path must be provided", ?_⟩,
                ⟨"NodeUnpublishVolume Target Path must be provided", ?_⟩⟩ <;>
          simp [nodePublishVolume, nodeUnpublishVolume, hv]
  · intro hv ht
    constructor
    · intro m
      simp only [nodePublishVolume, if_neg hv, if_neg ht]
      cases cfg.resticRepo[0]? <;> simp
    · intro m
      simp [nodeUnpublishVolume, hv, ht]

/-- Witness for C5: the empty-identifier case and the fully-populated case
at concrete requests. -/
theorem nodeCalls_validate_arguments_witness :
    (∃ m, nodePublishVolume cfgScenC4 "" "/mnt/test" = (.invalidArgument m, [])) ∧
    ∀ m, (nodePublishVolume cfgScenC4 "test-volume" "/mnt/test").1
        ≠ GrpcOutcome.invalidArgument m :=
  ⟨((nodeCalls_validate_arguments cfgScenC4 "" "/mnt/test").1 (Or.inl rfl)).1,
   ((nodeCalls_validate_arguments cfgScenC4 "test-volume" "/mnt/test").2
     (by decide) (by decide)).1⟩

/-- **C9.** The secret-resolution step of `LoadConfig`: every destination
environment value that begins with `"secret:"` and whose remaining key
exists in the secret store is replaced by the store's value (verbatim — the
substituted value is never itself re-resolved, i.e. resolution happens
exactly once), and every other environment value is returned unchanged;
keys, the number of entries, and the repository locator are untouched. -/
theorem loadConfig_resolves_secret_indirections
    (secret : List (String × String)) (cfg : Config) (i j : Nat)
    (d : Destination) (k v : String)
    (hd : cfg.resticRepo[i]? = some d) (hkv : d.environment[j]? = some (k, v)) :
    ∃ d', (loadConfigResolve secret cfg).resticRepo[i]? = some d' ∧
      d'.repository = d.repository ∧
      d'.environment.length = d.environment.length ∧
      (∀ sv, strHasPrefix v "secret:" = true → secret.lookup (strDropChars v 7) = some sv →
        d'.environment[j]? = some (k, sv)) ∧
      (strHasPrefix v "secret:" = true → secret.lookup (strDropChars v 7) = none →
        d'.environment[j]? = some (k, v)) ∧
      (strHasPrefix v "secret:" = false → d'.environment[j]? = some (k, v)) := by
  refine ⟨{ d with environment := d.environment.map (fun kv => (kv.1, resolveValue secret kv.2)) }, ?_, rfl, by simp, ?_, ?_, ?_⟩
  · simp [loadConfigResolve, hd]
  · intro sv hpre hsv
    simp [hkv, resolveValue, hpre, hsv]
  · intro hpre hsv
    simp [hkv, resolveValue, hpre, hsv]
  · intro hpre
    simp [hkv, resolveValue, hpre]

/-- Witness for C9: a destination with one `secret:`-indirected value and
one plain value. -/
theorem loadConfig_resolves_secret_indirections_witness :
    ∃ d', (loadConfigResolve [("pw", "hunter2")]
        { stagingPath := "/mnt/volumes", thinPoolName := "/dev/vg0/existing_thin_pool",
          resticRepo := [{ environment := [("RESTIC_PASSWORD", "secret:pw")],
                           repository := "s3:s3.example.org/backups" }] }).resticRepo[0]?
        = some d' ∧
      d'.repository = "s3:s3.example.org/backups" ∧
      d'.environment.length = 1 ∧
      d'.environment[0]? = some ("RESTIC_PASSWORD", "hunter2") := by
  obtain ⟨d', h1, h2, h3, h4, -, -⟩ :=
    loadConfig_resolves_secret_indirections [("pw", "hunter2")]
      { stagingPath := "/mnt/volumes", thinPoolName := "/dev/vg0/existing_thin_pool",
        resticRepo := [{ environment := [("RESTIC_PASSWORD", "secret:pw")],
                         repository := "s3:s3.example.org/backups" }] }
      0 0 { environment := [("RESTIC_PASSWORD", "secret:pw")],
            repository := "s3:s3.example.org/backups" }
      "RESTIC_PASSWORD" "secret:pw" (by decide) (by decide)
  exact ⟨d', h1, h2, h3, h4 "hunter2" (by decide) (by decide)⟩

/-- **C6.** (modelled from the spec — `SelectSnapshot` has no implementation
in the source tree) The selector returns `none` exactly when every
destination reported `none` (no snapshot, or a failed query) — a non-error
result — and otherwise returns a candidate timestamp with the smallest
absolute distance to the target time such that every strictly earlier
configured destination's candidate is strictly farther (ties are broken in
favour of the first configured destination). -/
theorem selectSnapshot_nearest (cands : List (Option Int)) (targetTime : Int) :
    (selectSnapshot cands targetTime = none ↔ ∀ c ∈ cands, c = none) ∧
    ∀ ts, selectSnapshot cands targetTime = some ts →
      ∃ i : Nat, cands[i]? = some (some ts) ∧
        (∀ (j : Nat) (ts' : Int), cands[j]? = some (some ts') →
          |ts - targetTime| ≤ |ts' - targetTime|) ∧
        (∀ (j : Nat) (ts' : Int), j < i → cands[j]? = some (some ts') →
          |ts - targetTime| < |ts' - targetTime|) := by
  induction cands with
  | nil =>
    constructor
    · simp [selectSnapshot]
    · intro ts h
      simp [selectSnapshot] at h
  | cons hd rest ih =>
    obtain ⟨ih1, ih2⟩ := ih
    cases hd with
    | none =>
      have hstep : selectSnapshot (none :: rest) targetTime
          = selectSnapshot rest targetTime := rfl
      constructor
      · rw [hstep, ih1]
        simp
      · intro ts h
        rw [hstep] at h
        obtain ⟨i, h1, h2, h3⟩ := ih2 ts h
        refine ⟨i + 1, by simpa using h1, ?_, ?_⟩
        · intro j ts' hj
          cases j with
          | zero => simp at hj
          | succ j => exact h2 j ts' (by simpa using hj)
        · intro j ts' hji hj
          cases j with
          | zero => simp at hj
          | succ j => exact h3 j ts' (by omega) (by simpa using hj)
    | some c =>
      have hstep : selectSnapshot (some c :: rest) targetTime =
          match selectSnapshot rest targetTime with
          | none => some c
          | some b => if |b - targetTime| < |c - targetTime| then some b
                      else some c := rfl
      cases hrest : selectSnapshot rest targetTime with
      | none =>
        have hall : ∀ x ∈ rest, x = none := ih1.mp hrest
        constructor
        · constructor
          · intro h
            rw [hstep, hrest] at h
            simp at h
          · intro h
            have := h (some c) (by simp)
            simp at this
        · intro ts h
          rw [hstep, hrest] at h
          have hc : c = ts := by simpa using h
          subst hc
          refine ⟨0, by simp, ?_, ?_⟩
          · intro j ts' hj
            cases j with
            | zero =>
              have he : c = ts' := by simpa using hj
              subst he
              exact le_refl _
            | succ j =>
              have hmem : some ts' ∈ rest :=
                List.mem_iff_getElem?.mpr ⟨j, by simpa using hj⟩
              have := hall _ hmem
              simp at this
          · intro j ts' hji hj
            exact absurd hji (Nat.not_lt_zero j)
      | some b =>
        obtain ⟨i, hb1, hb2, hb3⟩ := ih2 b hrest
        constructor
        · constructor
          · intro h
            rw [hstep, hrest] at h
            by_cases hlt : |b - targetTime| < |c - targetTime| <;> simp [hlt] at h
          · intro h
            have := h (some c) (by simp)
            simp at this
        · intro ts h
          rw [hstep, hrest] at h
          have h9 : (if |b - targetTime| < |c - targetTime| then some b else some c)
              = some ts := h
          by_cases hlt : |b - targetTime| < |c - targetTime|
          · rw [if_pos hlt] at h9
            have hb : b = ts := by simpa using h9
            subst hb
            refine ⟨i + 1, by simpa using hb1, ?_, ?_⟩
            · intro j ts' hj
              cases j with
              | zero =>
                have he : c = ts' := by simpa using hj
                subst he
                exact le_of_lt hlt
              | succ j => exact hb2 j ts' (by simpa using hj)
            · intro j ts' hji hj
              cases j with
              | zero =>
                have he : c = ts' := by simpa using hj
                subst he
                exact hlt
              | succ j => exact hb3 j ts' (by omega) (by simpa using hj)
          · rw [if_neg hlt] at h9
            have hc : c = ts := by simpa using h9
            subst hc
            push_neg at hlt
            refine ⟨0, by simp, ?_, ?_⟩
            · intro j ts' hj
              cases j with
              | zero =>
                have he : c = ts' := by simpa using hj
                subst he
                exact le_refl _
              | succ j => exact le_trans hlt (hb2 j ts' (by simpa using hj))
            · intro j ts' hji hj
              exact absurd hji (Nat.not_lt_zero j)

/-- Witness for C6: the spec's worked example — candidates at distances
{50, 5, 40} from the target time 100 select the distance-5 snapshot, and
all-`none` destinations yield `none`. -/
theorem selectSnapshot_nearest_witness :
    selectSnapshot [some 50, some 95, some 140] 100 = some 95 ∧
    selectSnapshot [none, none, none] 100 = none :=
  ⟨by decide, (selectSnapshot_nearest [none, none, none] 100).1.mpr (by decide)⟩

/-- **C2.** For an existing volume, `EnsureVolumeIsPresent` with a size
strictly larger than the volume's current (non-negative) size succeeds,
issues exactly one extend operation — on that volume's device — and leaves
both the backend record and the in-memory `Volume` record at the requested
size; with a smaller or equal size it issues zero extend operations,
succeeds, and leaves the backend state untouched. -/
theorem ensurePresent_extend_exactly_once (tp : ThinPool) (st : BackendState)
    (name : String) (size : Int) (b : BVol)
    (hco : Coherent tp st) (hfind : st.findVol name = some b) (hpos : 0 ≤ b.size) :
    (b.size < size →
      (ensureVolumeIsPresent tp st name size).err = none ∧
      (ensureVolumeIsPresent tp st name size).trace.filter Cmd.isExtend
        = [Cmd.lvextend size (devPath st.vg name)] ∧
      (∃ b', (ensureVolumeIsPresent tp st name size).state.findVol name = some b' ∧
        b'.size = size) ∧
      (∃ v, (ensureVolumeIsPresent tp st name size).pool.volumes.find?
          (fun x => x.lvName == name) = some v ∧ v.lvSize = size)) ∧
    (size ≤ b.size →
      (ensureVolumeIsPresent tp st name size).err = none ∧
      (ensureVolumeIsPresent tp st name size).trace.filter Cmd.isExtend = [] ∧
      (ensureVolumeIsPresent tp st name size).state = st) := by
  obtain ⟨h1, h2, h3⟩ := hco
  have hfindP : st.vols.find? (fun x => x.name == name) = some b := hfind
  have hname : b.name = name := by simpa using List.find?_some hfindP
  constructor
  · intro hlt
    have hcond : size ≠ 0 ∧ b.size < size := by
      constructor
      · intro h0
        subst h0
        omega
      · exact hlt
    rw [ensurePresent_extend_eq tp st name size b h1 h2 hfind hcond]
    refine ⟨rfl, ?_, ?_, ?_⟩
    · simp only [List.filter_append, filter_extend_queries,
        refreshVolumes_filter_extend, List.append_nil, List.nil_append]
      rw [hname]
      simp [Cmd.isExtend, List.filter]
    · refine ⟨{ b with size := size }, ?_, rfl⟩
      exact find_after_extend st b name size hfind
    · have h1b : ({ tp with volumes := st.vols.map (materialize st.vg st) } : ThinPool).name
          = st.poolName := h1
      have h2b : ({ tp with volumes := st.vols.map (materialize st.vg st) } : ThinPool).vgName
          = st.vg := h2
      refine ⟨materialize st.vg
          { st with
            vols := st.vols.map fun x =>
              if devPath st.vg x.name == devPath st.vg b.name then { x with size := size }
              else x } { b with size := size }, ?_, ?_⟩
      · dsimp only
        rw [refreshVolumes_eq ({ tp with volumes := st.vols.map (materialize st.vg st) })
          ({ st with
             vols := st.vols.map fun x =>
               if devPath st.vg x.name == devPath st.vg b.name then { x with size := size }
               else x }) h1b h2b]
        dsimp only
        rw [find_materialize]
        rw [find_after_extend st b name size hfind]
        rfl
      · rw [materialize_lvSize]
  · intro hle
    have hcond : ¬(size ≠ 0 ∧ b.size < size) := by
      intro h
      omega
    rw [ensurePresent_noop_eq tp st name size b h1 h2 hfind hcond]
    exact ⟨rfl, filter_extend_queries _ _ _ _, rfl⟩

/-- Witness for C2: extending the present 1 GiB `test-volume` to 2 GiB
succeeds with exactly one extend on `/dev/vg0/test-volume` and records at
the new size. -/
theorem ensurePresent_extend_exactly_once_witness :
    (ensureVolumeIsPresent tpScenC1 stScenPresent "test-volume" 2147483648).err = none ∧
    (ensureVolumeIsPresent tpScenC1 stScenPresent "test-volume"
      2147483648).trace.filter Cmd.isExtend
      = [Cmd.lvextend 2147483648 (devPath stScenPresent.vg "test-volume")] ∧
    (∃ b', (ensureVolumeIsPresent tpScenC1 stScenPresent "test-volume"
      2147483648).state.findVol "test-volume" = some b' ∧ b'.size = 2147483648) ∧
    (∃ v, (ensureVolumeIsPresent tpScenC1 stScenPresent "test-volume"
      2147483648).pool.volumes.find? (fun x => x.lvName == "test-volume")
      = some v ∧ v.lvSize = 2147483648) :=
  (ensurePresent_extend_exactly_once tpScenC1 stScenPresent "test-volume" 2147483648
    { name := "test-volume", size := 1073741824, attr := "Vwi-a-tz--" }
    ⟨rfl, rfl, rfl⟩ (by decide) (by decide)).1 (by decide)

theorem refreshVolumes_eq2 (tp : ThinPool) (st : BackendState)
    (h1 : tp.name = st.poolName) (h2 : tp.vgName = st.vg) :
    refreshVolumes tp st = (refreshedPool tp st, queriesTrace st) :=
  refreshVolumes_eq tp st h1 h2

theorem queriesTrace_filter_mut (st : BackendState) :
    (queriesTrace st).filter Cmd.isMutation = [] :=
  filter_mut_queries st.poolName st.vg st.vg st.vols

theorem queriesTrace_filter_extend (st : BackendState) :
    (queriesTrace st).filter Cmd.isExtend = [] :=
  filter_extend_queries st.poolName st.vg st.vg st.vols

theorem findVol_createSt (st : BackendState) (name : String) (size : Int)
    (habs : st.findVol name = none) :
    (createSt st name size).findVol name
      = some { name := name, size := size, attr := "Vwi-a-tz--" } :=
  find_after_create st name size habs

theorem findVol_extSt (st : BackendState) (b : BVol) (name : String) (size : Int)
    (hfind : st.findVol name = some b) :
    (extSt st b size).findVol name = some { b with size := size } :=
  find_after_extend st b name size hfind

theorem findVol_removeSt (st : BackendState) (b : BVol) (name : String)
    (hname : b.name = name) :
    (removeSt st b).findVol name = none :=
  find_after_remove st b name hname

theorem ensurePresent_noop_eq2 (tp : ThinPool) (st : BackendState) (name : String)
    (size : Int) (b : BVol) (h1 : tp.name = st.poolName) (h2 : tp.vgName = st.vg)
    (hfind : st.findVol name = some b) (hcond : ¬(size ≠ 0 ∧ b.size < size)) :
    ensureVolumeIsPresent tp st name size =
      ⟨refreshedPool tp st, st, queriesTrace st, none⟩ :=
  ensurePresent_noop_eq tp st name size b h1 h2 hfind hcond

theorem ensurePresent_create_eq2 (tp : ThinPool) (st : BackendState) (name : String)
    (size : Int) (h1 : tp.name = st.poolName) (h2 : tp.vgName = st.vg)
    (h3 : tp.longName = devPath st.vg st.poolName)
    (habs : st.findVol name = none) :
    ensureVolumeIsPresent tp st name size =
      ⟨refreshedPool (refreshedPool tp st) (createSt st name size),
       createSt st name size,
       queriesTrace st
         ++ [Cmd.lvcreate size (devPath st.vg st.poolName) name,
             Cmd.mkfs (devPath st.vg st.poolName)]
         ++ queriesTrace (createSt st name size),
       none⟩ := by
  rw [ensurePresent_create_eq tp st name size h1 h2 h3 habs,
    refreshVolumes_eq2 (refreshedPool tp st) (createSt st name size) h1 h2]

theorem ensurePresent_extend_eq2 (tp : ThinPool) (st : BackendState) (name : String)
    (size : Int) (b : BVol) (h1 : tp.name = st.poolName) (h2 : tp.vgName = st.vg)
    (hfind : st.findVol name = some b) (hcond : size ≠ 0 ∧ b.size < size) :
    ensureVolumeIsPresent tp st name size =
      ⟨refreshedPool (refreshedPool tp st) (extSt st b size),
       extSt st b size,
       queriesTrace st ++ [Cmd.lvextend size (devPath st.vg b.name)]
         ++ queriesTrace (extSt st b size),
       none⟩ := by
  rw [ensurePresent_extend_eq tp st name size b h1 h2 hfind hcond,
    refreshVolumes_eq2 (refreshedPool tp st) (extSt st b size) h1 h2]

theorem ensurePresent_noop_second (tpY : ThinPool) (stX : BackendState) (name : String)
    (size' : Int) (b' : BVol)
    (h1 : tpY.name = stX.poolName) (h2 : tpY.vgName = stX.vg)
    (hfind : stX.findVol name = some b')
    (hno : ¬(size' ≠ 0 ∧ b'.size < size')) :
    ensureVolumeIsPresent (refreshedPool tpY stX) stX name size' =
      ⟨refreshedPool tpY stX, stX, queriesTrace stX, none⟩ := by
  rw [ensurePresent_noop_eq (refreshedPool tpY stX) stX name size' b' h1 h2 hfind hno]

/-- **C3.** `EnsureVolumeIsPresent` is idempotent: a first call always
succeeds, and a second call with the same name and an equal or smaller
(non-negative) size also succeeds, performs no backend mutation (no create,
format, extend, remove, mount or unmount command), and leaves both the
in-memory pool record and the backend state exactly as the first call left
them. -/
theorem ensurePresent_idempotent (tp : ThinPool) (st : BackendState)
    (name : String) (size size' : Int)
    (hco : Coherent tp st) (h0 : 0 ≤ size') (hle : size' ≤ size) :
    (ensureVolumeIsPresent tp st name size).err = none ∧
    (ensureVolumeIsPresent (ensureVolumeIsPresent tp st name size).pool
      (ensureVolumeIsPresent tp st name size).state name size').err = none ∧
    (ensureVolumeIsPresent (ensureVolumeIsPresent tp st name size).pool
      (ensureVolumeIsPresent tp st name size).state name size').pool
      = (ensureVolumeIsPresent tp st name size).pool ∧
    (ensureVolumeIsPresent (ensureVolumeIsPresent tp st name size).pool
      (ensureVolumeIsPresent tp st name size).state name size').state
      = (ensureVolumeIsPresent tp st name size).state ∧
    (ensureVolumeIsPresent (ensureVolumeIsPresent tp st name size).pool
      (ensureVolumeIsPresent tp st name size).state name size').trace.filter Cmd.isMutation
      = [] := by
  obtain ⟨h1, h2, h3⟩ := hco
  cases hfind : st.findVol name with
  | none =>
    rw [ensurePresent_create_eq2 tp st name size h1 h2 h3 hfind]
    dsimp only
    have hnoC : ¬(size' ≠ 0 ∧
        ({ name := name, size := size, attr := "Vwi-a-tz--" } : BVol).size < size') := by
      dsimp only
      intro hcon
      obtain ⟨-, hc2⟩ := hcon
      omega
    rw [ensurePresent_noop_second (refreshedPool tp st) (createSt st name size) name size' _
      h1 h2 (findVol_createSt st name size hfind) hnoC]
    exact ⟨rfl, rfl, rfl, rfl, queriesTrace_filter_mut _⟩
  | some b =>
    by_cases hcond : size ≠ 0 ∧ b.size < size
    · rw [ensurePresent_extend_eq2 tp st name size b h1 h2 hfind hcond]
      dsimp only
      have hnoE : ¬(size' ≠ 0 ∧ ({ b with size := size } : BVol).size < size') := by
        dsimp only
        intro hcon
        obtain ⟨-, hc2⟩ := hcon
        omega
      rw [ensurePresent_noop_second (refreshedPool tp st) (extSt st b size) name size' _
        h1 h2 (findVol_extSt st b name size hfind) hnoE]
      exact ⟨rfl, rfl, rfl, rfl, queriesTrace_filter_mut _⟩
    · rw [ensurePresent_noop_eq2 tp st name size b h1 h2 hfind hcond]
      dsimp only
      have hno' : ¬(size' ≠ 0 ∧ b.size < size') := by
        intro hcon
        obtain ⟨hc1, hc2⟩ := hcon
        apply hcond
        refine ⟨?_, by omega⟩
        intro hz
        apply hc1
        omega
      rw [ensurePresent_noop_second tp st name size' b h1 h2 hfind hno']
      exact ⟨rfl, rfl, rfl, rfl, queriesTrace_filter_mut _⟩

/-- Witness for C3: publishing `test-volume` at 1 GiB on an empty pool and
then re-requesting 1 GiB. -/
theorem ensurePresent_idempotent_witness :
    (ensureVolumeIsPresent tpScenC1 stScenC1 "test-volume" 1073741824).err = none ∧
    (ensureVolumeIsPresent (ensureVolumeIsPresent tpScenC1 stScenC1 "test-volume" 1073741824).pool
      (ensureVolumeIsPresent tpScenC1 stScenC1 "test-volume" 1073741824).state
      "test-volume" 1073741824).err = none ∧
    (ensureVolumeIsPresent (ensureVolumeIsPresent tpScenC1 stScenC1 "test-volume" 1073741824).pool
      (ensureVolumeIsPresent tpScenC1 stScenC1 "test-volume" 1073741824).state
      "test-volume" 1073741824).pool
      = (ensureVolumeIsPresent tpScenC1 stScenC1 "test-volume" 1073741824).pool ∧
    (ensureVolumeIsPresent (ensureVolumeIsPresent tpScenC1 stScenC1 "test-volume" 1073741824).pool
      (ensureVolumeIsPresent tpScenC1 stScenC1 "test-volume" 1073741824).state
      "test-volume" 1073741824).state
      = (ensureVolumeIsPresent tpScenC1 stScenC1 "test-volume" 1073741824).state ∧
    (ensureVolumeIsPresent (ensureVolumeIsPresent tpScenC1 stScenC1 "test-volume" 1073741824).pool
      (ensureVolumeIsPresent tpScenC1 stScenC1 "test-volume" 1073741824).state
      "test-volume" 1073741824).trace.filter Cmd.isMutation = [] :=
  ensurePresent_idempotent tpScenC1 stScenC1 "test-volume" 1073741824 1073741824
    ⟨rfl, rfl, rfl⟩ (by decide) (by decide)

theorem volumeRemove_eq (st : BackendState) (b : BVol) (hb : b ∈ st.vols)
    (v : Volume) (hvg : v.vgName = st.vg) (hlv : v.lvName = b.name) :
    volumeRemove v st = (removeSt st b, [Cmd.lvremove (devPath st.vg b.name)], none) := by
  unfold volumeRemove runLvremove Volume.devName
  rw [hvg, hlv]
  have hany : st.vols.any (fun x => devPath st.vg x.name == devPath st.vg b.name) = true :=
    List.any_eq_true.mpr ⟨b, hb, by simp⟩
  rw [if_pos hany]

theorem ensureAbsent_absent_eq (tp : ThinPool) (st : BackendState) (name : String)
    (h1 : tp.name = st.poolName) (h2 : tp.vgName = st.vg)
    (habs : st.findVol name = none) :
    ensureVolumeIsAbsent tp st name = ⟨refreshedPool tp st, st, queriesTrace st, none⟩ := by
  unfold ensureVolumeIsAbsent
  rw [getVolume_eq tp st name h1 h2, habs]
  rfl

theorem ensureAbsent_remove_eq (tp : ThinPool) (st : BackendState) (name : String)
    (b : BVol) (h1 : tp.name = st.poolName) (h2 : tp.vgName = st.vg)
    (hfind : st.findVol name = some b) :
    ensureVolumeIsAbsent tp st name =
      ⟨refreshedPool (refreshedPool tp st) (removeSt st b),
       removeSt st b,
       queriesTrace st ++ [Cmd.lvremove (devPath st.vg b.name)]
         ++ queriesTrace (removeSt st b),
       none⟩ := by
  unfold ensureVolumeIsAbsent
  rw [getVolume_eq tp st name h1 h2, hfind]
  simp only [Option.map_some']
  rw [volumeRemove_eq st b (List.mem_of_find?_eq_some hfind) (materialize st.vg st b)
      (materialize_vgName st.vg st b) (materialize_lvName st.vg st b),
    refreshVolumes_eq2 (refreshedPool tp st) (removeSt st b) h1 h2]

theorem ensureAbsent_absent_second (tpY : ThinPool) (stX : BackendState) (name : String)
    (h1 : tpY.name = stX.poolName) (h2 : tpY.vgName = stX.vg)
    (habs : stX.findVol name = none) :
    ensureVolumeIsAbsent (refreshedPool tpY stX) stX name =
      ⟨refreshedPool tpY stX, stX, queriesTrace stX, none⟩ := by
  rw [ensureAbsent_absent_eq (refreshedPool tpY stX) stX name h1 h2 habs]

/-- **C7.** `EnsureVolumeIsAbsent` is idempotent on absence: on a name not
present in the pool it issues no backend mutation (in particular no removal
command) and returns success leaving the backend untouched; on a present
volume it succeeds issuing exactly one `lvremove` on that volume's device,
after which the volume is gone, and a second call is then a mutation-free
no-op returning success. -/
theorem ensureAbsent_idempotent (tp : ThinPool) (st : BackendState) (name : String)
    (hco : Coherent tp st) :
    (st.findVol name = none →
      (ensureVolumeIsAbsent tp st name).err = none ∧
      (ensureVolumeIsAbsent tp st name).state = st ∧
      (ensureVolumeIsAbsent tp st name).trace.filter Cmd.isMutation = []) ∧
    (∀ b, st.findVol name = some b →
      (ensureVolumeIsAbsent tp st name).err = none ∧
      (ensureVolumeIsAbsent tp st name).state.findVol name = none ∧
      (ensureVolumeIsAbsent tp st name).trace.filter Cmd.isMutation
        = [Cmd.lvremove (devPath st.vg name)] ∧
      (ensureVolumeIsAbsent (ensureVolumeIsAbsent tp st name).pool
        (ensureVolumeIsAbsent tp st name).state name).err = none ∧
      (ensureVolumeIsAbsent (ensureVolumeIsAbsent tp st name).pool
        (ensureVolumeIsAbsent tp st name).state name).state
        = (ensureVolumeIsAbsent tp st name).state ∧
      (ensureVolumeIsAbsent (ensureVolumeIsAbsent tp st name).pool
        (ensureVolumeIsAbsent tp st name).state name).trace.filter Cmd.isMutation = []) := by
  obtain ⟨h1, h2, h3⟩ := hco
  constructor
  · intro habs
    rw [ensureAbsent_absent_eq tp st name h1 h2 habs]
    exact ⟨rfl, rfl, queriesTrace_filter_mut _⟩
  · intro b hfind
    have hfindP : st.vols.find? (fun x => x.name == name) = some b := hfind
    have hname : b.name = name := by simpa using List.find?_some hfindP
    rw [ensureAbsent_remove_eq tp st name b h1 h2 hfind]
    dsimp only
    refine ⟨rfl, findVol_removeSt st b name hname, ?_, ?_⟩
    · rw [← hname]
      simp only [List.filter_append, queriesTrace_filter_mut, List.nil_append,
        List.append_nil]
      rfl
    · rw [ensureAbsent_absent_second (refreshedPool tp st) (removeSt st b) name h1 h2
        (findVol_removeSt st b name hname)]
      exact ⟨rfl, rfl, queriesTrace_filter_mut _⟩

/-- Witness for C7: removing the present `test-volume` succeeds with one
`lvremove`, a second call is a mutation-free no-op, and a call on the empty
pool performs no mutation. -/
theorem ensureAbsent_idempotent_witness :
    (ensureVolumeIsAbsent tpScenC1 stScenPresent "test-volume").err = none ∧
    (ensureVolumeIsAbsent tpScenC1 stScenPresent "test-volume").state.findVol "test-volume"
      = none ∧
    (ensureVolumeIsAbsent tpScenC1 stScenPresent "test-volume").trace.filter Cmd.isMutation
      = [Cmd.lvremove (devPath stScenPresent.vg "test-volume")] ∧
    (ensureVolumeIsAbsent (ensureVolumeIsAbsent tpScenC1 stScenPresent "test-volume").pool
      (ensureVolumeIsAbsent tpScenC1 stScenPresent "test-volume").state "test-volume").err
      = none ∧
    (ensureVolumeIsAbsent (ensureVolumeIsAbsent tpScenC1 stScenPresent "test-volume").pool
      (ensureVolumeIsAbsent tpScenC1 stScenPresent "test-volume").state "test-volume").state
      = (ensureVolumeIsAbsent tpScenC1 stScenPresent "test-volume").state ∧
    (ensureVolumeIsAbsent (ensureVolumeIsAbsent tpScenC1 stScenPresent "test-volume").pool
      (ensureVolumeIsAbsent tpScenC1 stScenPresent "test-volume").state
      "test-volume").trace.filter Cmd.isMutation = [] ∧
    (ensureVolumeIsAbsent tpScenC1 stScenC1 "test-volume").err = none ∧
    (ensureVolumeIsAbsent tpScenC1 stScenC1 "test-volume").state = stScenC1 ∧
    (ensureVolumeIsAbsent tpScenC1 stScenC1 "test-volume").trace.filter Cmd.isMutation
      = [] := by
  obtain ⟨-, hB⟩ := ensureAbsent_idempotent tpScenC1 stScenPresent "test-volume" ⟨rfl, rfl, rfl⟩
  obtain ⟨e1, e2, e3, e4, e5, e6⟩ :=
    hB { name := "test-volume", size := 1073741824, attr := "Vwi-a-tz--" } (by decide)
  obtain ⟨hA2, -⟩ := ensureAbsent_idempotent tpScenC1 stScenC1 "test-volume" ⟨rfl, rfl, rfl⟩
  obtain ⟨f1, f2, f3⟩ := hA2 (by decide)
  exact ⟨e1, e2, e3, e4, e5, e6, f1, f2, f3⟩
